import Mathlib

/-!
Shallow embedding of the Decision Coach single-page component
(`src/src/pages/Index.tsx`): the decision / commitment / feedback state
machine, its event handlers, and the commitment digest computation.
React `useState` fields become one state record; each handler becomes a
pure function on that record, returning in addition any single-shot
delayed callback it schedules (as the delay in milliseconds).
-/

/-- `type Direction = 'UP' | 'DOWN'` (Index.tsx line 54). -/
inductive Direction where
  | UP
  | DOWN
deriving DecidableEq, Repr

/-- The string literal a `Direction` value denotes in the TypeScript source. -/
def Direction.str : Direction → String
  | .UP => "UP"
  | .DOWN => "DOWN"

/-- `interface CoachResponse` (Index.tsx lines 63-67). -/
structure CoachResponse where
  feedback : String
  patternInsight : String
  nextSuggestion : String
deriving DecidableEq, Repr

/-- `interface AIAnalysis` (Index.tsx lines 56-61). -/
structure AIAnalysis where
  direction : Direction
  confidence : Nat
  signals : List String
  coachNote : String
deriving DecidableEq, Repr

/-- `mockAIAnalysis` (Index.tsx lines 69-79): the fixed reference analysis. -/
def mockAIAnalysis : AIAnalysis :=
  { direction := .UP
  , confidence := 78
  , signals :=
      [ "Order flow: bullish momentum detected"
      , "RSI: neutral, no extreme readings"
      , "Sentiment: slightly positive across channels"
      , "Volume profile: above average accumulation" ]
  , coachNote := "This is analysis to inform your thinking, not a recommendation to follow." }

/-- The `agree_correct` payload of `coachResponses` (Index.tsx lines 82-86). -/
def agreeCorrectResponse : CoachResponse :=
  { feedback := "Your reasoning aligned with the analysis, and the outcome confirmed it. This is a good sign your pattern recognition is developing well. Stay curious about what signals felt most reliable to you."
  , patternInsight := "When you trust your read and it matches the data, you\x27re building calibrated confidence."
  , nextSuggestion := "Next time, notice which specific signal gave you the most conviction." }

/-- The `agree_incorrect` payload of `coachResponses` (Index.tsx lines 87-91). -/
def agreeIncorrectResponse : CoachResponse :=
  { feedback := "You aligned with the analysis, but the outcome went the other way. This happens—markets are probabilistic, not deterministic. The goal isn\x27t to be right every time, but to learn from each decision."
  , patternInsight := "Incorrect outcomes when following data are normal. What matters is your process was sound."
  , nextSuggestion := "Reflect on whether any signal felt uncertain. Trust that discomfort next time." }

/-- The `disagree_correct` payload of `coachResponses` (Index.tsx lines 92-96). -/
def disagreeCorrectResponse : CoachResponse :=
  { feedback := "You went against the analysis and were right. This shows independent thinking and perhaps pattern recognition the model missed. That\x27s valuable—but also rare. Consider what you saw that the data didn\x27t capture."
  , patternInsight := "Contrarian calls that work out often come from noticing something others overlooked."
  , nextSuggestion := "Document what gave you conviction to disagree. This insight could be your edge." }

/-- The `disagree_incorrect` payload of `coachResponses` (Index.tsx lines 97-101). -/
def disagreeIncorrectResponse : CoachResponse :=
  { feedback := "You disagreed with the analysis, and the outcome didn\x27t favor your call. That\x27s okay—learning to calibrate when to trust your instincts versus the data is part of the training. Each decision teaches you something."
  , patternInsight := "Disagreeing with data isn\x27t wrong, but it requires strong conviction backed by observation."
  , nextSuggestion := "Ask yourself: what made you doubt the analysis? Was it pattern or impulse?" }

/-- `coachResponses: Record<string, CoachResponse>` (Index.tsx lines 81-102),
as the association list underlying the record literal. -/
def coachResponses : List (String × CoachResponse) :=
  [ ("agree_correct", agreeCorrectResponse)
  , ("agree_incorrect", agreeIncorrectResponse)
  , ("disagree_correct", disagreeCorrectResponse)
  , ("disagree_incorrect", disagreeIncorrectResponse) ]

/-- `coachResponses[key]`: record indexing, `undefined` (here `none`) on a
missing key. -/
def coachResponsesAt (key : String) : Option CoachResponse :=
  (coachResponses.find? (fun p => p.1 = key)).map (·.2)

/-- `'idle' | 'pending' | 'confirmed'` (Index.tsx line 124). -/
inductive TxStatus where
  | idle
  | pending
  | confirmed
deriving DecidableEq, Repr

/-- The `useState` fields of the `DecisionCoach` component
(Index.tsx lines 109-125), gathered into one record. -/
structure DecisionCoachState where
  demoMode : Bool
  walletConnected : Bool
  walletAddress : String
  userDirection : Option Direction
  userConfidence : Int
  isLocked : Bool
  timeRemaining : Int
  timerActive : Bool
  showTimeWarning : Bool
  outcome : Direction
  showOutcome : Bool
  commitmentHash : String
  txStatus : TxStatus
  txHash : String
deriving DecidableEq, Repr

/-- The initial values passed to `useState` (Index.tsx lines 109-125). -/
def initialState : DecisionCoachState :=
  { demoMode := true
  , walletConnected := false
  , walletAddress := ""
  , userDirection := none
  , userConfidence := 65
  , isLocked := false
  , timeRemaining := 30
  , timerActive := true
  , showTimeWarning := false
  , outcome := .UP
  , showOutcome := false
  , commitmentHash := ""
  , txStatus := .idle
  , txHash := "" }

/-- `handleLockIn` (Index.tsx lines 181-190): no-op without a direction;
otherwise locks, stops the timer, and schedules the outcome reveal via
`setTimeout(..., 800)`. The second component is the delay in milliseconds of
the scheduled reveal callback, `none` when nothing was scheduled. -/
def handleLockIn (s : DecisionCoachState) : DecisionCoachState × Option Nat :=
  match s.userDirection with
  | none => (s, none)
  | some _ => ({ s with isLocked := true, timerActive := false }, some 800)

/-- The body of the `setTimeout` callback scheduled by `handleLockIn`
(Index.tsx lines 187-189): `setShowOutcome(true)`. -/
def fireOutcomeReveal (s : DecisionCoachState) : DecisionCoachState :=
  { s with showOutcome := true }

/-- `handleRandomizeOutcome` (Index.tsx lines 227-229):
`setOutcome(prev => prev === 'UP' ? 'DOWN' : 'UP')`. -/
def handleRandomizeOutcome (s : DecisionCoachState) : DecisionCoachState :=
  { s with outcome := match s.outcome with | .UP => .DOWN | .DOWN => .UP }

/-- `resetDemo` (Index.tsx lines 231-242). -/
def resetDemo (s : DecisionCoachState) : DecisionCoachState :=
  { s with
      userDirection := none
    , userConfidence := 65
    , isLocked := false
    , timeRemaining := 30
    , timerActive := true
    , showTimeWarning := false
    , showOutcome := false
    , commitmentHash := ""
    , txStatus := .idle
    , txHash := "" }

/-- One evaluation of the timer `useEffect` body (Index.tsx lines 128-146).
Returns the updated state, whether a once-per-second interval tick was
scheduled, and the delay of an outcome-reveal timeout when the zero branch
called `handleLockIn`. -/
def timerEffect (s : DecisionCoachState) : DecisionCoachState × Bool × Option Nat :=
  if !s.timerActive || s.isLocked then (s, false, none)
  else if s.timeRemaining ≤ 0 then
    match s.userDirection with
    | some _ =>
        let r := handleLockIn s
        (r.1, false, r.2)
    | none => ({ s with showTimeWarning := true, timerActive := false }, false, none)
  else (s, true, none)

/-- The body of the interval callback (Index.tsx lines 141-143):
`setTimeRemaining(t => t - 1)`. -/
def timerTick (s : DecisionCoachState) : DecisionCoachState :=
  { s with timeRemaining := s.timeRemaining - 1 }

/-- The value the browser delivers through the confidence range input
(Index.tsx lines 421-429): an `<input type="range" min="0" max="100">`
clamps its value to the `[min, max]` interval, so `Number(e.target.value)`
lies in `[0, 100]`. -/
def rangeInputValue (v : Int) : Int := max 0 (min 100 v)

/-- The `onChange` handler of the confidence slider (Index.tsx line 426):
`(e) => !isLocked && setUserConfidence(Number(e.target.value))`, where the
target is the range input above. -/
def setConfidence (s : DecisionCoachState) (v : Int) : DecisionCoachState :=
  if s.isLocked then s else { s with userConfidence := rangeInputValue v }

/-- `getCoachFeedback` (Index.tsx lines 245-253), with the component state
it reads passed explicitly. -/
def getCoachFeedback (showOutcome : Bool) (userDirection : Option Direction)
    (outcome : Direction) : Option CoachResponse :=
  if !showOutcome then none
  else
    match userDirection with
    | none => none
    | some d =>
        let agreed := d = mockAIAnalysis.direction
        let correct := d = outcome
        coachResponsesAt
          ((if agreed then "agree" else "disagree") ++ "_" ++
           (if correct then "correct" else "incorrect"))

/-- The `disabled` condition of the commit button (Index.tsx line 607):
`!commitmentHash || txStatus === 'pending' || txStatus === 'confirmed' ||
(!demoMode && !walletConnected)`. -/
def commitButtonDisabled (s : DecisionCoachState) : Bool :=
  s.commitmentHash = "" || s.txStatus = .pending || s.txStatus = .confirmed
    || (!s.demoMode && !s.walletConnected)

/-- The synchronous phase of `handleCommitProof` (Index.tsx lines 192-199):
guard on an empty commitment hash, then `setTxStatus('pending')` and a
2000 ms await before the rest runs. The second component is the delay of
the scheduled continuation, `none` when the guard returned early. -/
def handleCommitProofStart (s : DecisionCoachState) : DecisionCoachState × Option Nat :=
  if s.commitmentHash = "" then (s, none)
  else ({ s with txStatus := .pending }, some 2000)

/-- `Math.floor(Math.random() * 16).toString(16)` for one draw: a single
lowercase hex digit. The stream of `Math.random()` draws is modelled by the
value of `Math.floor(r * 16)` for each, an element of `Fin 16`. -/
def hexDigits : List Char := "0123456789abcdef".toList

/-- `n.toString(16)` for `n < 16`. -/
def hexDigitChar (n : Nat) : Char := hexDigits.getD n '0'

/-- The fake transaction hash built in demo mode (Index.tsx lines 200-202):
`'0x' + Array.from({ length: 64 }, () => Math.floor(Math.random() * 16).toString(16)).join('')`,
with the 64 random draws passed explicitly. -/
def fakeTxHash (draws : Fin 64 → Fin 16) : String :=
  "0x" ++ String.mk ((List.finRange 64).map (fun i => hexDigitChar (draws i)))

/-- The demo-mode continuation of `handleCommitProof` after the 2000 ms
await (Index.tsx lines 203-204): `setTxHash(fakeTxHash); setTxStatus('confirmed')`. -/
def demoSubmitComplete (draws : Fin 64 → Fin 16) (s : DecisionCoachState) :
    DecisionCoachState :=
  { s with txHash := fakeTxHash draws, txStatus := .confirmed }

/-- Clicking the commit button: a disabled button does not fire its
`onClick`, so the click is `handleCommitProofStart` guarded by
`commitButtonDisabled` (Index.tsx lines 605-613). -/
def submitClick (s : DecisionCoachState) : DecisionCoachState × Option Nat :=
  if commitButtonDisabled s then (s, none) else handleCommitProofStart s

/-! ## Helper lemmas -/

theorem hexDigitChar_mem (n : Nat) : hexDigitChar n ∈ hexDigits := by
  by_cases h : n < 16
  · interval_cases n <;> decide
  · have hlen : hexDigits.length ≤ n := by
      simp only [hexDigits, List.length]
      omega
    unfold hexDigitChar
    rw [List.getD_eq_default _ _ hlen]
    decide

/-! ## Claim theorems -/

/-- C1: `getCoachFeedback` is a pure function of the revealed flag, the user
direction, the fixed reference direction and the outcome: it returns `none`
whenever the outcome is not revealed or no direction was chosen, and
otherwise exactly one of four fixed, pairwise-distinct payloads keyed by
(agreement with the reference direction, agreement with the outcome); in
particular UP/UP/UP yields `agree_correct`, DOWN/UP/DOWN yields
`disagree_correct`, and UP/UP/DOWN yields `agree_incorrect`. -/
theorem getCoachFeedback_resolver :
    (∀ ud out, getCoachFeedback false ud out = none) ∧
    (∀ rev out, getCoachFeedback rev none out = none) ∧
    (∀ d out, getCoachFeedback true (some d) out =
      some (if d = mockAIAnalysis.direction then
              (if d = out then agreeCorrectResponse else agreeIncorrectResponse)
            else
              (if d = out then disagreeCorrectResponse else disagreeIncorrectResponse))) ∧
    (agreeCorrectResponse ≠ agreeIncorrectResponse ∧
     agreeCorrectResponse ≠ disagreeCorrectResponse ∧
     agreeCorrectResponse ≠ disagreeIncorrectResponse ∧
     agreeIncorrectResponse ≠ disagreeCorrectResponse ∧
     agreeIncorrectResponse ≠ disagreeIncorrectResponse ∧
     disagreeCorrectResponse ≠ disagreeIncorrectResponse) ∧
    getCoachFeedback true (some .UP) .UP = some agreeCorrectResponse ∧
    getCoachFeedback true (some .DOWN) .DOWN = some disagreeCorrectResponse ∧
    getCoachFeedback true (some .UP) .DOWN = some agreeIncorrectResponse := by
  refine ⟨fun ud out => rfl, fun rev out => by cases rev <;> rfl,
    fun d out => by cases d <;> cases out <;> rfl, by decide, rfl, rfl, rfl⟩

/-- C2: clicking the commit button leaves the state unchanged and schedules
nothing whenever the commitment hash is empty or the submission status is
already pending or confirmed. -/
theorem submit_noop_unless_ready (s : DecisionCoachState)
    (h : s.commitmentHash = "" ∨ s.txStatus = .pending ∨ s.txStatus = .confirmed) :
    submitClick s = (s, none) := by
  have hd : commitButtonDisabled s = true := by
    rcases h with h | h | h <;> simp [commitButtonDisabled, h]
  simp [submitClick, hd]

theorem submit_noop_unless_ready_witness :
    submitClick initialState = (initialState, none) ∧
    submitClick { initialState with commitmentHash := "0xabc", txStatus := .pending } =
      ({ initialState with commitmentHash := "0xabc", txStatus := .pending }, none) := by
  exact ⟨submit_noop_unless_ready initialState (Or.inl rfl),
    submit_noop_unless_ready _ (Or.inr (Or.inl rfl))⟩

/-- C3: the confidence slider handler stores a value clamped to `[0, 100]`
and is a no-op once the lock flag is true. -/
theorem setConfidence_clamps_and_respects_lock (s : DecisionCoachState) (v : Int) :
    (s.isLocked = true → setConfidence s v = s) ∧
    (s.isLocked = false →
      (setConfidence s v).userConfidence = max 0 (min 100 v) ∧
      0 ≤ (setConfidence s v).userConfidence ∧
      (setConfidence s v).userConfidence ≤ 100) := by
  constructor
  · intro h; simp [setConfidence, h]
  · intro h
    have hs : setConfidence s v = { s with userConfidence := max 0 (min 100 v) } := by
      simp [setConfidence, h, rangeInputValue]
    rw [hs]
    exact ⟨rfl, le_max_left 0 _, max_le (by norm_num) (min_le_left _ _)⟩

theorem setConfidence_clamps_witness :
    setConfidence { initialState with isLocked := true } 200 =
      { initialState with isLocked := true } ∧
    (setConfidence initialState 200).userConfidence = 100 ∧
    (setConfidence initialState (-5)).userConfidence = 0 := by
  refine ⟨(setConfidence_clamps_and_respects_lock _ 200).1 rfl, ?_, ?_⟩
  · rw [((setConfidence_clamps_and_respects_lock initialState 200).2 rfl).1]; decide
  · rw [((setConfidence_clamps_and_respects_lock initialState (-5)).2 rfl).1]; decide

/-- C4: `resetDemo` restores direction unset, confidence 65, lock false,
timer 30 seconds and running, time-warning cleared, outcome hidden,
commitment empty, submission idle and transaction id empty, from any prior
state. -/
theorem resetDemo_restores_defaults (s : DecisionCoachState) :
    (resetDemo s).userDirection = none ∧
    (resetDemo s).userConfidence = 65 ∧
    (resetDemo s).isLocked = false ∧
    (resetDemo s).timeRemaining = 30 ∧
    (resetDemo s).timerActive = true ∧
    (resetDemo s).showTimeWarning = false ∧
    (resetDemo s).showOutcome = false ∧
    (resetDemo s).commitmentHash = "" ∧
    (resetDemo s).txStatus = .idle ∧
    (resetDemo s).txHash = "" := by
  simp [resetDemo]

/-- C5: when the countdown reaches zero in the unlocked, timer-active state,
the effect sets the warning flag and deactivates the timer without locking
if no direction was chosen, and triggers the lock action (lock set, timer
off, reveal scheduled) if a direction was chosen. -/
theorem timerExpiry_behavior (s : DecisionCoachState)
    (hAct : s.timerActive = true) (hLock : s.isLocked = false)
    (hZero : s.timeRemaining = 0) :
    (s.userDirection = none →
      timerEffect s = ({ s with showTimeWarning := true, timerActive := false }, false, none) ∧
      (timerEffect s).1.isLocked = false) ∧
    (∀ d, s.userDirection = some d →
      timerEffect s = ((handleLockIn s).1, false, (handleLockIn s).2) ∧
      (timerEffect s).1.isLocked = true ∧
      (timerEffect s).1.timerActive = false ∧
      (timerEffect s).2.2 = some 800) := by
  constructor
  · intro h
    simp [timerEffect, hAct, hLock, hZero, h]
  · intro d h
    simp [timerEffect, hAct, hLock, hZero, h, handleLockIn]

theorem timerExpiry_behavior_witness :
    (timerEffect { initialState with timeRemaining := 0 }).1.showTimeWarning = true ∧
    (timerEffect { initialState with timeRemaining := 0, userDirection := some .UP }).1.isLocked
      = true := by
  constructor
  · have h := (timerExpiry_behavior { initialState with timeRemaining := 0 } rfl rfl rfl).1 rfl
    rw [h.1]
  · exact ((timerExpiry_behavior
      { initialState with timeRemaining := 0, userDirection := some .UP }
      rfl rfl rfl).2 .UP rfl).2.1

/-- C6: `handleLockIn` is a no-op with nothing scheduled when no direction is
chosen; with a direction it sets the lock flag, deactivates the timer and
schedules the outcome reveal after 800 ms; a second call after locking
leaves the state unchanged, and the reveal callback is idempotent, so the
outcome is revealed exactly once. -/
theorem lockIn_guard_and_idempotence (s : DecisionCoachState) :
    (s.userDirection = none → handleLockIn s = (s, none)) ∧
    (∀ d, s.userDirection = some d →
      handleLockIn s = ({ s with isLocked := true, timerActive := false }, some 800) ∧
      (handleLockIn (handleLockIn s).1).1 = (handleLockIn s).1 ∧
      fireOutcomeReveal (fireOutcomeReveal (handleLockIn s).1) =
        fireOutcomeReveal (handleLockIn s).1) := by
  constructor
  · intro h; simp [handleLockIn, h]
  · intro d h; simp [handleLockIn, h, fireOutcomeReveal]

theorem lockIn_guard_and_idempotence_witness :
    handleLockIn initialState = (initialState, none) ∧
    handleLockIn { initialState with userDirection := some .UP } =
      ({ initialState with userDirection := some .UP, isLocked := true, timerActive := false },
        some 800) := by
  exact ⟨(lockIn_guard_and_idempotence initialState).1 rfl,
    ((lockIn_guard_and_idempotence { initialState with userDirection := some .UP }).2 .UP rfl).1⟩

/-- C7: in demo mode, with a commitment present and status idle, the submit
click moves the status to pending immediately and schedules a 2000 ms
continuation; the continuation always confirms and stores a freshly drawn
transaction id of the form `0x` followed by 64 hex digits. -/
theorem demoSubmit_transitions (s : DecisionCoachState) (draws : Fin 64 → Fin 16)
    (hDemo : s.demoMode = true) (hHash : s.commitmentHash ≠ "")
    (hIdle : s.txStatus = .idle) :
    submitClick s = ({ s with txStatus := .pending }, some 2000) ∧
    (demoSubmitComplete draws (submitClick s).1).txStatus = .confirmed ∧
    (demoSubmitComplete draws (submitClick s).1).txHash = fakeTxHash draws ∧
    (fakeTxHash draws).length = 66 ∧
    (fakeTxHash draws).toList.take 2 = ['0', 'x'] ∧
    ∀ c ∈ (fakeTxHash draws).toList.drop 2, c ∈ hexDigits := by
  have hd : commitButtonDisabled s = false := by
    simp [commitButtonDisabled, hHash, hIdle, hDemo]
  have hclick : submitClick s = ({ s with txStatus := .pending }, some 2000) := by
    simp [submitClick, hd, handleCommitProofStart, hHash]
  have hlen : (fakeTxHash draws).length = 66 := by
    simp [fakeTxHash, String.length_append, String.length]
  have hchars : (fakeTxHash draws).toList =
      '0' :: 'x' :: (List.finRange 64).map (fun i => hexDigitChar (draws i)) := by
    simp [fakeTxHash, String.toList, String.data_append]
  refine ⟨hclick, by simp [demoSubmitComplete], by simp [demoSubmitComplete], hlen, ?_, ?_⟩
  · rw [hchars]; rfl
  · rw [hchars]
    intro c hc
    simp only [List.drop, List.mem_map] at hc
    obtain ⟨i, _, hi⟩ := hc
    exact hi ▸ hexDigitChar_mem _

theorem demoSubmit_transitions_witness :
    submitClick { initialState with commitmentHash := "0xabc" } =
      ({ initialState with commitmentHash := "0xabc", txStatus := .pending }, some 2000) ∧
    (demoSubmitComplete (fun _ => 0)
      (submitClick { initialState with commitmentHash := "0xabc" }).1).txStatus = .confirmed ∧
    (fakeTxHash (fun _ => 0)).length = 66 := by
  have h := demoSubmit_transitions { initialState with commitmentHash := "0xabc" }
    (fun _ => 0) rfl (by decide) rfl
  exact ⟨h.1, h.2.1, h.2.2.2.1⟩

/-- C9: `handleRandomizeOutcome` flips the outcome direction, changes no
other field, and is an involution on the whole state. -/
theorem toggleOutcome_flips_and_involutive (s : DecisionCoachState) :
    ((handleRandomizeOutcome s).outcome = .DOWN ↔ s.outcome = .UP) ∧
    ((handleRandomizeOutcome s).outcome = .UP ↔ s.outcome = .DOWN) ∧
    (handleRandomizeOutcome s).demoMode = s.demoMode ∧
    (handleRandomizeOutcome s).walletConnected = s.walletConnected ∧
    (handleRandomizeOutcome s).walletAddress = s.walletAddress ∧
    (handleRandomizeOutcome s).userDirection = s.userDirection ∧
    (handleRandomizeOutcome s).userConfidence = s.userConfidence ∧
    (handleRandomizeOutcome s).isLocked = s.isLocked ∧
    (handleRandomizeOutcome s).timeRemaining = s.timeRemaining ∧
    (handleRandomizeOutcome s).timerActive = s.timerActive ∧
    (handleRandomizeOutcome s).showTimeWarning = s.showTimeWarning ∧
    (handleRandomizeOutcome s).showOutcome = s.showOutcome ∧
    (handleRandomizeOutcome s).commitmentHash = s.commitmentHash ∧
    (handleRandomizeOutcome s).txStatus = s.txStatus ∧
    (handleRandomizeOutcome s).txHash = s.txHash ∧
    handleRandomizeOutcome (handleRandomizeOutcome s) = s := by
  rcases s with ⟨dm, wc, wa, ud, uc, il, tr, ta, stw, oc, so, ch, ts, th⟩
  cases oc <;> simp [handleRandomizeOutcome]

/-- C10: `resetDemo` leaves the outcome direction, the demo-mode flag and
the wallet-connection state (connected flag and address) unchanged. -/
theorem resetDemo_frame (s : DecisionCoachState) :
    (resetDemo s).outcome = s.outcome ∧
    (resetDemo s).demoMode = s.demoMode ∧
    (resetDemo s).walletConnected = s.walletConnected ∧
    (resetDemo s).walletAddress = s.walletAddress := by
  simp [resetDemo]

/-! ## Commitment digest: packed encoding and keccak-256
(`computeCommitment`, Index.tsx lines 149-172, built on viem's
`encodePacked` and `keccak256`). -/

/-- A value passed to viem's `encodePacked`, restricted to the two Solidity
types `computeCommitment` uses: `string` and `uint256`. -/
inductive PackedValue where
  | str (s : String)
  | uint256 (n : Int)
deriving DecidableEq, Repr

/-- Big-endian byte encoding of a natural number, padded to `len` bytes. -/
def natToBEBytes (len : Nat) (n : Nat) : List Nat :=
  (List.range len).map (fun i => (n >>> (8 * (len - 1 - i))) % 256)

/-- UTF-8 bytes of a string, as natural numbers. -/
def strUtf8Bytes (s : String) : List Nat :=
  s.toUTF8.toList.map (fun b => b.toNat)

/-- Packed encoding of one value: a `string` contributes its raw UTF-8
bytes; a `uint256` contributes 32 big-endian bytes and throws
(`IntegerOutOfRangeError`) when the value does not fit a `uint256`. -/
def encodePackedValue : PackedValue → Except String (List Nat)
  | .str s => .ok (strUtf8Bytes s)
  | .uint256 n =>
      if n < 0 ∨ 2 ^ 256 ≤ n then .error "IntegerOutOfRangeError"
      else .ok (natToBEBytes 32 n.toNat)

/-- viem's `encodePacked`: the concatenation of the packed encodings,
throwing when the encoding of any single value throws. -/
def encodePacked (vals : List PackedValue) : Except String (List Nat) :=
  (vals.mapM encodePackedValue).map List.flatten

/-- Bit `t` of the keccak round-constant sequence, from the degree-8 LFSR of
the reference specification (polynomial `x^8 + x^6 + x^5 + x^4 + 1`). -/
def keccakRCBit (t : Nat) : Nat :=
  ((List.range (t % 255)).foldl
    (fun r _ =>
      let r2 := r <<< 1
      if r2 &&& 0x100 = 0 then r2 else r2 ^^^ 0x171)
    1) &&& 1

/-- The 24 round constants of keccak-f[1600]: round `i` has bit `2 ^ j - 1`
set to `keccakRCBit (7 * i + j)` for `j < 7`. -/
def keccakRC : List Nat :=
  (List.range 24).map (fun i =>
    (List.range 7).foldl (fun acc j => acc ||| keccakRCBit (7 * i + j) <<< (2 ^ j - 1)) 0)

/-- The rotation amounts of the ρ step, indexed by lane `x + 5 * y`: lane
`(0, 0)` keeps offset 0, and the walk `(x, y) ↦ (y, (2x + 3y) % 5)` starting
at `(1, 0)` assigns the triangular numbers `(t + 1)(t + 2) / 2 mod 64`. -/
def keccakRho : List Nat :=
  ((List.range 24).foldl
    (fun (st : (Nat × Nat) × List Nat) t =>
      let x := st.1.1
      let y := st.1.2
      ((y, (2 * x + 3 * y) % 5), st.2.set (x + 5 * y) ((t + 1) * (t + 2) / 2 % 64)))
    ((1, 0), List.replicate 25 0)).2

/-- 64-bit left rotation; lane values are naturals kept below `2 ^ 64`. -/
def rotl64 (x n : Nat) : Nat := ((x <<< n) ||| (x >>> (64 - n))) % 2 ^ 64

/-- The θ step. The sponge state is the list of the 25 lane values, indexed
by `x + 5 * y` with `0 ≤ x, y < 5`. -/
def keccakTheta (A : List Nat) : List Nat :=
  let C := fun x =>
    A.getD x 0 ^^^ A.getD (x + 5) 0 ^^^ A.getD (x + 10) 0 ^^^ A.getD (x + 15) 0
      ^^^ A.getD (x + 20) 0
  let D := fun x => C ((x + 4) % 5) ^^^ rotl64 (C ((x + 1) % 5)) 1
  (List.range 25).map (fun i => A.getD i 0 ^^^ D (i % 5))

/-- The combined ρ and π steps: output lane `(x, y)` is the rotated source
lane `((x + 3 * y) % 5, x)`. -/
def keccakRhoPi (A : List Nat) : List Nat :=
  (List.range 25).map (fun i =>
    let x := i % 5
    let y := i / 5
    let src := (x + 3 * y) % 5 + 5 * x
    rotl64 (A.getD src 0) (keccakRho.getD src 0))

/-- The χ step; complement is xor against the 64-bit all-ones mask. -/
def keccakChi (A : List Nat) : List Nat :=
  (List.range 25).map (fun i =>
    let x := i % 5
    let y := i / 5
    A.getD i 0 ^^^
      ((A.getD ((x + 1) % 5 + 5 * y) 0 ^^^ (2 ^ 64 - 1)) &&& A.getD ((x + 2) % 5 + 5 * y) 0))

/-- The ι step: xor the round constant into lane 0. -/
def keccakIota (rc : Nat) (A : List Nat) : List Nat :=
  (List.range 25).map (fun i => if i = 0 then A.getD 0 0 ^^^ rc else A.getD i 0)

/-- One keccak-f round. -/
def keccakRound (A : List Nat) (rc : Nat) : List Nat :=
  keccakIota rc (keccakChi (keccakRhoPi (keccakTheta A)))

/-- The keccak-f[1600] permutation: 24 rounds. -/
def keccakF (A : List Nat) : List Nat :=
  keccakRC.foldl keccakRound A

/-- The pad10*1 padding of original keccak-256 (domain byte `0x01`, final
byte `0x80`, rate 136 bytes). -/
def keccakPad (msg : List Nat) : List Nat :=
  let padLen := 136 - msg.length % 136
  if padLen = 1 then msg ++ [0x81]
  else msg ++ 0x01 :: List.replicate (padLen - 2) 0 ++ [0x80]

/-- A 64-bit lane from 8 little-endian bytes. -/
def laneOfBytes (bs : List Nat) : Nat :=
  bs.foldr (fun b acc => acc * 256 + b) 0

/-- Xor one 136-byte rate block into the first 17 lanes of the state. -/
def absorbBlock (A : List Nat) (block : List Nat) : List Nat :=
  (List.range 25).map (fun i =>
    if i < 17 then A.getD i 0 ^^^ laneOfBytes ((block.drop (8 * i)).take 8) else A.getD i 0)

/-- keccak-256 digest of a byte string: absorb all rate blocks of the padded
message into the all-zero state, then read the first 32 bytes of the state
(lanes little-endian). -/
def keccak256Bytes (msg : List Nat) : List Nat :=
  let padded := keccakPad msg
  let nBlocks := padded.length / 136
  let final := (List.range nBlocks).foldl
    (fun A k => keccakF (absorbBlock A ((padded.drop (136 * k)).take 136)))
    (List.replicate 25 0)
  (List.range 32).map (fun i => ((final.getD (i / 8) 0) >>> (8 * (i % 8))) % 256)

/-- Lowercase hex rendering of a byte list, two digits per byte. -/
def bytesToHexChars : List Nat → List Char
  | [] => []
  | b :: rest => hexDigitChar (b / 16) :: hexDigitChar (b % 16) :: bytesToHexChars rest

/-- viem's `keccak256` on bytes: the digest as a `0x`-led lowercase hex
string. -/
def keccak256Hex (msg : List Nat) : String :=
  "0x" ++ String.mk (bytesToHexChars (keccak256Bytes msg))

/-- `'0x' + '0'.repeat(64)`: the fallback digest of the catch branch
(Index.tsx line 170). -/
def zeroDigest : String := "0x" ++ String.mk (List.replicate 64 '0')

/-- The argument list `computeCommitment` passes to `encodePacked`
(Index.tsx lines 156-166): actor address (`'0xDemoUser'` in demo mode, else
the wallet address with `'0x0'` for the empty string), the fixed analysis
direction and confidence, the user direction (`'NONE'` when unset) and
confidence, the outcome, and the Unix timestamp. -/
def commitmentArgs (demoMode : Bool) (walletAddress : String)
    (userDirection : Option Direction) (userConfidence : Int)
    (outcome : Direction) (timestamp : Int) : List PackedValue :=
  let address := if demoMode then "0xDemoUser"
    else if walletAddress = "" then "0x0" else walletAddress
  [ .str address
  , .str mockAIAnalysis.direction.str
  , .uint256 (mockAIAnalysis.confidence : Int)
  , .str (match userDirection with | some d => d.str | none => "NONE")
  , .uint256 userConfidence
  , .str outcome.str
  , .uint256 timestamp ]

/-- `computeCommitment` (Index.tsx lines 149-172), with the component state
it reads and the wall-clock timestamp passed explicitly: the keccak-256 hex
digest of the packed arguments, or the all-zero digest when the packed
encoding throws. -/
def computeCommitment (demoMode : Bool) (walletAddress : String)
    (userDirection : Option Direction) (userConfidence : Int)
    (outcome : Direction) (timestamp : Int) : String :=
  match encodePacked
      (commitmentArgs demoMode walletAddress userDirection userConfidence outcome timestamp) with
  | .ok bytes => keccak256Hex bytes
  | .error _ => zeroDigest

/-! ## Digest format lemmas -/

theorem keccak256Bytes_length (msg : List Nat) : (keccak256Bytes msg).length = 32 := by
  simp [keccak256Bytes]

theorem bytesToHexChars_length (bs : List Nat) :
    (bytesToHexChars bs).length = 2 * bs.length := by
  induction bs with
  | nil => rfl
  | cons b rest ih => simp [bytesToHexChars, ih]; ring

theorem bytesToHexChars_mem (bs : List Nat) :
    ∀ c ∈ bytesToHexChars bs, c ∈ hexDigits := by
  induction bs with
  | nil => intro c hc; simp [bytesToHexChars] at hc
  | cons b rest ih =>
      intro c hc
      simp only [bytesToHexChars, List.mem_cons] at hc
      rcases hc with h | h | h
      · exact h ▸ hexDigitChar_mem _
      · exact h ▸ hexDigitChar_mem _
      · exact ih c h

theorem keccak256Hex_toList (msg : List Nat) :
    (keccak256Hex msg).toList = '0' :: 'x' :: bytesToHexChars (keccak256Bytes msg) := rfl

theorem keccak256Hex_format (msg : List Nat) :
    (keccak256Hex msg).length = 66 ∧
    (keccak256Hex msg).toList.take 2 = ['0', 'x'] ∧
    ∀ c ∈ (keccak256Hex msg).toList.drop 2, c ∈ hexDigits := by
  refine ⟨?_, ?_, ?_⟩
  · have h : (keccak256Hex msg).length = (keccak256Hex msg).toList.length := rfl
    rw [h, keccak256Hex_toList]
    simp [bytesToHexChars_length, keccak256Bytes_length]
  · rw [keccak256Hex_toList]; rfl
  · rw [keccak256Hex_toList]
    intro c hc
    exact bytesToHexChars_mem _ c (by simpa using hc)

/-- C8: the commitment computation always yields a fixed-length hex digest
(`0x` then 64 hex characters): the keccak-256 digest of the packed inputs on
success, and the all-zero digest of the same shape when the packed encoding
throws — the exception never reaches the caller. -/
theorem computeCommitment_digest_format (dm : Bool) (wa : String)
    (ud : Option Direction) (uc : Int) (out : Direction) (ts : Int) :
    (computeCommitment dm wa ud uc out ts).length = 66 ∧
    (computeCommitment dm wa ud uc out ts).toList.take 2 = ['0', 'x'] ∧
    (∀ c ∈ (computeCommitment dm wa ud uc out ts).toList.drop 2, c ∈ hexDigits) ∧
    (match encodePacked (commitmentArgs dm wa ud uc out ts) with
     | .ok bytes => computeCommitment dm wa ud uc out ts = keccak256Hex bytes
     | .error _ => computeCommitment dm wa ud uc out ts = zeroDigest) := by
  cases h : encodePacked (commitmentArgs dm wa ud uc out ts) with
  | ok bytes =>
      have hc : computeCommitment dm wa ud uc out ts = keccak256Hex bytes := by
        unfold computeCommitment
        rw [h]
      have hf := keccak256Hex_format bytes
      rw [hc]
      exact ⟨hf.1, hf.2.1, hf.2.2, rfl⟩
  | error e =>
      have hc : computeCommitment dm wa ud uc out ts = zeroDigest := by
        unfold computeCommitment
        rw [h]
      rw [hc]
      exact ⟨by decide, by decide, by decide, rfl⟩
